import Mathlib

/-
  Verification of the HDTV display core (Painter / GSViewport / Viewer).

  Shallow embedding of the coordinate-transform engine `Painter`
  (src/src/display/Painter.h), the viewport object-management layer
  `GSViewport` (src/src/gspec/GSViewport.h) and the window shell `Viewer`
  (src/src/display/Viewer.cxx).  C++ doubles are modelled as real numbers;
  the unsigned 32-bit fields (UInt_t) are modelled as naturals together
  with explicit wrap-around modulo 2^32 where the source performs UInt_t
  arithmetic.
-/

namespace HDTV
namespace Display

/-- Wrap-around width of the C++ `UInt_t` type. -/
def uintMod : ℕ := 2 ^ 32

/-- `a + b` evaluated in unsigned 32-bit arithmetic. -/
def add32 (a b : ℕ) : ℕ := (a + b) % uintMod

/-- `a - b` evaluated in unsigned 32-bit arithmetic (wrapping modulo 2^32). -/
def sub32 (a b : ℕ) : ℕ := (a % uintMod + (uintMod - b % uintMod)) % uintMod

/-- The `ViewMode` enumeration of Painter.h. -/
inductive ViewMode
  | kVMSolid
  | kVMHollow
  | kVMDotted
deriving DecidableEq

/-- The view-geometry state held by `HDTV::Display::Painter`
(fields of Painter.h, lines 147-153; the drawable / GC / font handles are
toolkit resources outside the model). -/
structure Painter where
  fXZoom : ℝ
  fYZoom : ℝ
  fXVisibleRegion : ℝ
  fYVisibleRegion : ℝ
  fXOffset : ℝ
  fYOffset : ℝ
  fLogScale : Bool
  fXBase : ℕ
  fYBase : ℕ
  fWidth : ℕ
  fHeight : ℕ
  fViewMode : ViewMode

namespace Painter

/-- Modelled from the spec: the bodies of `Painter::ModLog` (declared at
Painter.h line 99, defined in the missing Painter.cxx).  The spec describes a
modified log "that behaves like sign(x)*log(1+|x|)": strictly monotonic,
through 0, exactly inverted by `InvModLog`. -/
noncomputable def ModLog (x : ℝ) : ℝ :=
  if 0 ≤ x then Real.log (x + 1) else -Real.log (1 - x)

/-- Modelled from the spec: the body of `Painter::InvModLog` (declared at
Painter.h line 100, defined in the missing Painter.cxx); exact inverse of
`ModLog`. -/
noncomputable def InvModLog (y : ℝ) : ℝ :=
  if 0 ≤ y then Real.exp y - 1 else 1 - Real.exp (-y)

/-- Modelled from the spec: the body of `Painter::UpdateYZoom` (declared at
Painter.h line 144, defined in the missing Painter.cxx).  Per the spec,
`yZoom` is recomputed from `yVisibleRegion`, `yOffset`, `logScale` and
`height` so that the visible count range maps exactly to the pixel height
under the current scale mode. -/
noncomputable def yZoomFormula (yv yoff : ℝ) (log : Bool) (height : ℕ) : ℝ :=
  if log then (height : ℝ) / (ModLog (yoff + yv) - ModLog yoff)
  else (height : ℝ) / yv

/-- Modelled from the spec (see `yZoomFormula`): `Painter::UpdateYZoom`. -/
noncomputable def UpdateYZoom (p : Painter) : Painter :=
  { p with fYZoom :=
      yZoomFormula p.fYVisibleRegion p.fYOffset p.fLogScale p.fHeight }

/-- `Painter::SetXVisibleRegion` (Painter.h lines 70-71):
`fXVisibleRegion = xv; fXZoom = fWidth / fXVisibleRegion;`. -/
noncomputable def SetXVisibleRegion (p : Painter) (xv : ℝ) : Painter :=
  { p with fXVisibleRegion := xv, fXZoom := (p.fWidth : ℝ) / xv }

/-- `Painter::SetYVisibleRegion` (Painter.h lines 73-74):
`fYVisibleRegion = yv; UpdateYZoom();`. -/
noncomputable def SetYVisibleRegion (p : Painter) (yv : ℝ) : Painter :=
  UpdateYZoom { p with fYVisibleRegion := yv }

/-- `Painter::SetLogScale` (Painter.h lines 78-79):
`fLogScale = l; UpdateYZoom();`. -/
noncomputable def SetLogScale (p : Painter) (l : Bool) : Painter :=
  UpdateYZoom { p with fLogScale := l }

/-- `Painter::SetViewMode` (Painter.h line 81). -/
noncomputable def SetViewMode (p : Painter) (vm : ViewMode) : Painter :=
  { p with fViewMode := vm }

/-- `Painter::SetBasePoint` (Painter.h line 83). -/
noncomputable def SetBasePoint (p : Painter) (x y : ℕ) : Painter :=
  { p with fXBase := x, fYBase := y }

/-- Modelled from the spec: the body of `Painter::SetSize` (declared at
Painter.h line 85, defined in the missing Painter.cxx).  Per the spec the
invariant `xZoom = width / xVisibleRegion` holds always and `yZoom` is
recomputed whenever `height` changes, so `SetSize` stores the new size and
re-establishes both zooms. -/
noncomputable def SetSize (p : Painter) (w h : ℕ) : Painter :=
  UpdateYZoom { p with fWidth := w, fHeight := h,
                       fXZoom := (w : ℝ) / p.fXVisibleRegion }

/-- `Painter::SetXOffset` (Painter.h line 91): `fXOffset = offset;`. -/
noncomputable def SetXOffset (p : Painter) (offset : ℝ) : Painter :=
  { p with fXOffset := offset }

/-- `Painter::SetYOffset` (Painter.h line 92):
`fYOffset = offset; UpdateYZoom();`. -/
noncomputable def SetYOffset (p : Painter) (offset : ℝ) : Painter :=
  UpdateYZoom { p with fYOffset := offset }

/-- `Painter::XtoE(UInt_t x)` (Painter.h lines 102-103):
`(double) (x - fXBase) / fXZoom + fXOffset;` — the subtraction `x - fXBase`
is performed on `UInt_t`, hence wraps modulo 2^32 before the conversion to
double. -/
noncomputable def XtoE_u (p : Painter) (x : ℕ) : ℝ :=
  ((sub32 x p.fXBase : ℕ) : ℝ) / p.fXZoom + p.fXOffset

/-- `Painter::XtoE(double x)` (Painter.h lines 106-107):
`(x - (double) fXBase) / fXZoom + fXOffset;`. -/
noncomputable def XtoE (p : Painter) (x : ℝ) : ℝ :=
  (x - (p.fXBase : ℝ)) / p.fXZoom + p.fXOffset

/-- `Painter::EtoX(double e)` (Painter.h lines 104-105):
`(int) TMath::Ceil(((e - fXOffset) * fXZoom) + fXBase - 0.5);`. -/
noncomputable def EtoX (p : Painter) (e : ℝ) : ℤ :=
  ⌈(e - p.fXOffset) * p.fXZoom + (p.fXBase : ℝ) - 0.5⌉

/-- `Painter::dXtodE` (Painter.h lines 108-109). -/
noncomputable def dXtodE (p : Painter) (dX : ℤ) : ℝ := (dX : ℝ) / p.fXZoom

/-- `Painter::dEtodX` (Painter.h lines 110-111). -/
noncomputable def dEtodX (p : Painter) (dE : ℝ) : ℝ := dE * p.fXZoom

/-- `Painter::IsWithin` (Painter.h lines 115-117):
`x >= fXBase && x <= fXBase + fWidth && y >= fYBase - fHeight && y <= fYBase`
with all operands of type `UInt_t`, so `fXBase + fWidth` and
`fYBase - fHeight` wrap modulo 2^32. -/
def IsWithin (p : Painter) (x y : ℕ) : Bool :=
  decide (p.fXBase ≤ x) && decide (x ≤ add32 p.fXBase p.fWidth) &&
  decide (sub32 p.fYBase p.fHeight ≤ y) && decide (y ≤ p.fYBase)

end Painter

end Display
end HDTV

open HDTV.Display

/-- A concrete Painter state used by the scenario parts of the claims. -/
noncomputable def painter0 : Painter :=
  { fXZoom := 1, fYZoom := 1, fXVisibleRegion := 1, fYVisibleRegion := 1,
    fXOffset := 0, fYOffset := 0, fLogScale := false,
    fXBase := 0, fYBase := 0, fWidth := 400, fHeight := 300,
    fViewMode := ViewMode.kVMSolid }

/-- C1: the pixel/energy transforms compute exactly the spec formulas:
`XtoE(x) = (x - xBase) / xZoom + xOffset` and
`EtoX(e) = ceil((e - xOffset) * xZoom + xBase - 0.5)`; in the scenario with
width 400 and `SetXVisibleRegion 100` (so `xZoom = 4`), `xOffset = 0`,
`xBase = 0`, one has `XtoE 40 = 10`. -/
theorem C1_xtransform_formulas :
    (∀ (p : Painter) (x : ℝ),
        p.XtoE x = (x - (p.fXBase : ℝ)) / p.fXZoom + p.fXOffset) ∧
    (∀ (p : Painter) (e : ℝ),
        p.EtoX e = ⌈(e - p.fXOffset) * p.fXZoom + (p.fXBase : ℝ) - 0.5⌉) ∧
    ((painter0.SetXVisibleRegion 100).fXZoom = 4 ∧
      (painter0.SetXVisibleRegion 100).XtoE 40 = 10) := by
  refine ⟨fun p x => rfl, fun p e => rfl, ?_, ?_⟩
  · show (400 : ℝ) / 100 = 4
    norm_num
  · show ((40 : ℝ) - ((0 : ℕ) : ℝ)) / ((400 : ℝ) / 100) + 0 = 10
    norm_num

/-- `uintMod` as a numeral, for `omega`. -/
theorem uintMod_eq : uintMod = 4294967296 := by norm_num [uintMod]

/-- Unsigned 32-bit subtraction of in-range operands, written with an
explicit wrap case. -/
theorem sub32_eq (a b : ℕ) (ha : a < uintMod) (hb : b < uintMod) :
    sub32 a b = if b ≤ a then a - b else a + uintMod - b := by
  unfold sub32
  rw [uintMod_eq] at *
  split <;> omega

/-- Unsigned 32-bit subtraction agrees with truncated subtraction when no
wrap occurs. -/
theorem sub32_of_le (a b : ℕ) (ha : a < uintMod) (h : b ≤ a) :
    sub32 a b = a - b := by
  rw [sub32_eq a b ha (lt_of_le_of_lt h ha), if_pos h]

/-- C2: for every integer pixel `x`, given `xZoom > 0`, the round trip
`EtoX (XtoE x)` is within one pixel of `x` (in the exact real model the round
trip is the identity, so the distance is at most 1). -/
theorem C2_roundtrip_within_one (p : Painter) (x : ℤ) (hz : 0 < p.fXZoom) :
    (p.EtoX (p.XtoE (x : ℝ)) - x).natAbs ≤ 1 := by
  have hz' : p.fXZoom ≠ 0 := ne_of_gt hz
  have key : p.EtoX (p.XtoE (x : ℝ)) = x := by
    unfold Painter.EtoX Painter.XtoE
    have h1 : (((x : ℝ) - (p.fXBase : ℝ)) / p.fXZoom + p.fXOffset - p.fXOffset)
        * p.fXZoom + (p.fXBase : ℝ) - 0.5 = (x : ℝ) - 0.5 := by
      field_simp
      ring
    rw [h1]
    have h2 : ((x : ℤ) : ℝ) - 1 < (x : ℝ) - 0.5 ∧ (x : ℝ) - 0.5 ≤ ((x : ℤ) : ℝ) := by
      constructor <;> [linarith; linarith]
    rw [Int.ceil_eq_iff]
    · exact h2
  rw [key, sub_self]
  decide

/-- Witness for C2 at a concrete state: `painter0` after
`SetXVisibleRegion 100` has `xZoom = 4 > 0`, and the round trip at pixel 40
stays within one pixel. -/
theorem C2_roundtrip_within_one_witness :
    (((painter0.SetXVisibleRegion 100).EtoX
        ((painter0.SetXVisibleRegion 100).XtoE ((40 : ℤ) : ℝ))) - 40).natAbs ≤ 1 :=
  C2_roundtrip_within_one (painter0.SetXVisibleRegion 100) 40 (by norm_num [Painter.SetXVisibleRegion, painter0])

/-- A Painter state whose base point does not sit at pixel 0; exposes the
unsigned wrap in `XtoE(UInt_t)`. -/
noncomputable def painterBase1 : Painter := { painter0 with fXBase := 1 }

/-- Counterexample to C4 as stated: at `xBase = 1`, `xZoom = 1`,
`xOffset = 0` and pixel `x = 0 < xBase`, the integer overload
`XtoE(UInt_t)` wraps modulo 2^32 (yielding 4294967295) while the
double-precision formula yields -1. -/
theorem C4_counterexample :
    ¬ (painterBase1.XtoE_u 0 = painterBase1.XtoE ((0 : ℕ) : ℝ)) := by
  have hs : sub32 0 (1 : ℕ) = 4294967295 := by
    unfold sub32
    rw [uintMod_eq]
  simp only [Painter.XtoE_u, Painter.XtoE, painterBase1, painter0]
  rw [hs]
  norm_num

/-- C4 amended: the integer-pixel overload `XtoE(UInt_t x)` yields the same
value as the double-precision formula for every in-range pixel `x ≥ xBase`;
for `x < xBase` the `UInt_t` subtraction wraps modulo 2^32 and the two
differ. -/
theorem C4_uint_overload_agrees (p : Painter) (x : ℕ)
    (hx : p.fXBase ≤ x) (hx2 : x < uintMod) :
    p.XtoE_u x = p.XtoE (x : ℝ) := by
  unfold Painter.XtoE_u Painter.XtoE
  rw [sub32_of_le x p.fXBase hx2 hx, Nat.cast_sub hx]

/-- Witness for C4's amended theorem at pixel 40 of the scenario state. -/
theorem C4_uint_overload_agrees_witness :
    (painter0.SetXVisibleRegion 100).XtoE_u 40
      = (painter0.SetXVisibleRegion 100).XtoE ((40 : ℕ) : ℝ) :=
  C4_uint_overload_agrees (painter0.SetXVisibleRegion 100) 40
    (by norm_num [Painter.SetXVisibleRegion, painter0]) (by rw [uintMod_eq]; norm_num)

/-- C10: `IsWithin(x, y)` is true exactly when `xBase ≤ x ≤ xBase + width`
and `yBase - height ≤ y ≤ yBase` with the arithmetic evaluated in unsigned
32-bit fashion: the sum reduced modulo 2^32 and the subtraction wrapping
modulo 2^32 when `height > yBase`; all four boundaries inclusive. -/
theorem C10_isWithin_iff (p : Painter) (x y : ℕ)
    (hyb : p.fYBase < uintMod) (hh : p.fHeight < uintMod) :
    p.IsWithin x y = true ↔
      (p.fXBase ≤ x ∧ x ≤ (p.fXBase + p.fWidth) % uintMod ∧
        (if p.fHeight ≤ p.fYBase then p.fYBase - p.fHeight
         else p.fYBase + uintMod - p.fHeight) ≤ y ∧ y ≤ p.fYBase) := by
  unfold Painter.IsWithin add32
  rw [sub32_eq p.fYBase p.fHeight hyb hh]
  simp [Bool.and_eq_true, decide_eq_true_eq, and_assoc]

/-- Witness for C10 at the concrete scenario state: pixel (40, 0) lies
within the plot area of `painter0`. -/
theorem C10_isWithin_iff_witness :
    painter0.IsWithin 40 0 = true ↔
      (painter0.fXBase ≤ 40 ∧ 40 ≤ (painter0.fXBase + painter0.fWidth) % uintMod ∧
        (if painter0.fHeight ≤ painter0.fYBase then painter0.fYBase - painter0.fHeight
         else painter0.fYBase + uintMod - painter0.fHeight) ≤ 0 ∧ 0 ≤ painter0.fYBase) :=
  C10_isWithin_iff painter0 40 0 (by rw [uintMod_eq]; norm_num [painter0])
    (by rw [uintMod_eq]; norm_num [painter0])

/-- The Painter x-geometry invariant: `xZoom = width / xVisibleRegion`. -/
def XZoomInv (p : Painter) : Prop :=
  p.fXZoom = (p.fWidth : ℝ) / p.fXVisibleRegion

/-- The Painter y-geometry invariant: `yZoom` agrees with the recomputation
from `yVisibleRegion`, `yOffset`, `logScale` and `height`. -/
def YZoomInv (p : Painter) : Prop :=
  p.fYZoom = Painter.yZoomFormula p.fYVisibleRegion p.fYOffset p.fLogScale p.fHeight

/-- C3: the invariant `xZoom = width / xVisibleRegion` holds after every
Painter operation: `SetXVisibleRegion` re-establishes it, `SetSize`
(which changes the width) re-establishes it, and every other public setter
leaves `xZoom`, `width` and `xVisibleRegion` untouched, hence preserves it. -/
theorem C3_xzoom_invariant (p : Painter) (h : XZoomInv p) :
    (∀ xv, XZoomInv (p.SetXVisibleRegion xv)) ∧
    (∀ w hh, XZoomInv (p.SetSize w hh)) ∧
    (∀ yv, XZoomInv (p.SetYVisibleRegion yv)) ∧
    (∀ l, XZoomInv (p.SetLogScale l)) ∧
    (∀ o, XZoomInv (p.SetXOffset o)) ∧
    (∀ o, XZoomInv (p.SetYOffset o)) ∧
    (∀ vm, XZoomInv (p.SetViewMode vm)) ∧
    (∀ x y, XZoomInv (p.SetBasePoint x y)) :=
  ⟨fun _ => rfl, fun _ _ => rfl, fun _ => h, fun _ => h,
    fun _ => h, fun _ => h, fun _ => h, fun _ _ => h⟩

/-- Witness for C3: a concrete state satisfying the invariant, pushed
through a setter that merely preserves it. -/
theorem C3_xzoom_invariant_witness :
    XZoomInv ((painter0.SetXVisibleRegion 100).SetXOffset 5) :=
  (C3_xzoom_invariant (painter0.SetXVisibleRegion 100) rfl).2.2.2.2.1 5

/-- C7: every setter that changes `yVisibleRegion`, `yOffset`, `logScale` or
`height` (`SetYVisibleRegion`, `SetYOffset`, `SetLogScale`, `SetSize`)
recomputes `yZoom` via `UpdateYZoom` before returning, so the returned state
always satisfies the `yZoom` recomputation invariant. -/
theorem C7_yzoom_recomputed (p : Painter) :
    (∀ yv, YZoomInv (p.SetYVisibleRegion yv)) ∧
    (∀ o, YZoomInv (p.SetYOffset o)) ∧
    (∀ l, YZoomInv (p.SetLogScale l)) ∧
    (∀ w h, YZoomInv (p.SetSize w h)) :=
  ⟨fun _ => rfl, fun _ => rfl, fun _ => rfl, fun _ _ => rfl⟩

/-- C6: for every count `c ≥ 0`, `InvModLog (ModLog c) = c` exactly, and
`ModLog` is strictly monotonic and passes through 0. -/
theorem C6_modlog_inverse_mono (c : ℝ) (hc : 0 ≤ c) :
    Painter.InvModLog (Painter.ModLog c) = c ∧
    StrictMono Painter.ModLog ∧ Painter.ModLog 0 = 0 := by
  refine ⟨?_, ?_, ?_⟩
  · have h1 : Painter.ModLog c = Real.log (c + 1) := by
      unfold Painter.ModLog
      rw [if_pos hc]
    have h2 : 0 ≤ Real.log (c + 1) := Real.log_nonneg (by linarith)
    rw [h1]
    unfold Painter.InvModLog
    rw [if_pos h2, Real.exp_log (by linarith)]
    ring
  · intro a b hab
    unfold Painter.ModLog
    by_cases ha : 0 ≤ a
    · rw [if_pos ha, if_pos (le_of_lt (lt_of_le_of_lt ha hab))]
      exact Real.log_lt_log (by linarith) (by linarith)
    · push_neg at ha
      rw [if_neg (not_le.mpr ha)]
      by_cases hb : 0 ≤ b
      · rw [if_pos hb]
        have h1 : 0 < Real.log (1 - a) := Real.log_pos (by linarith)
        have h2 : 0 ≤ Real.log (b + 1) := Real.log_nonneg (by linarith)
        linarith
      · push_neg at hb
        rw [if_neg (not_le.mpr hb)]
        have h3 : Real.log (1 - b) < Real.log (1 - a) :=
          Real.log_lt_log (by linarith) (by linarith)
        linarith
  · unfold Painter.ModLog
    rw [if_pos le_rfl]
    norm_num

/-- Witness for C6 at the concrete count `c = 1`. -/
theorem C6_modlog_inverse_mono_witness :
    Painter.InvModLog (Painter.ModLog 1) = 1 ∧
    StrictMono Painter.ModLog ∧ Painter.ModLog 0 = 0 :=
  C6_modlog_inverse_mono 1 (by norm_num)

namespace GSViewport

/-- Modelled from the spec: the body of the template helper
`GSViewport::FindFreeId` (declared at GSViewport.h lines 102-103, defined in
the missing GSViewport.cxx).  A collection is a vector of slots that are
either occupied or vacated; the lowest free id is the index of the first
vacant slot, or the length when no slot is vacant (first-fit over vacated
slots). -/
def FindFreeId {α : Type} : List (Option α) → ℕ
  | [] => 0
  | none :: _ => 0
  | some _ :: rest => FindFreeId rest + 1

/-- Modelled from the spec: the body of the template helper
`GSViewport::DeleteItem` (declared at GSViewport.h lines 104-105, defined in
the missing GSViewport.cxx): removes the object at index `id` from the
collection, vacating its slot so the id becomes free. -/
def DeleteItem {α : Type} : List (Option α) → ℕ → List (Option α)
  | [], _ => []
  | _ :: rest, 0 => none :: rest
  | x :: rest, n + 1 => x :: DeleteItem rest n

/-- Modelled from the spec: the storing step shared by the `Add*` operations
(`AddSpec`, `AddFunc`, `AddXMarker`, `AddYMarker`, declared in GSViewport.h,
defined in the missing GSViewport.cxx): the new object goes into the lowest
free slot, growing the vector when no slot is vacant. -/
def StoreItem {α : Type} : List (Option α) → α → List (Option α)
  | [], x => [some x]
  | none :: rest, x => some x :: rest
  | some y :: rest, x => some y :: StoreItem rest x

/-- Modelled from the spec: an `Add*` operation stores the object and returns
the assigned id, which is `FindFreeId` of the collection before the add. -/
def AddItem {α : Type} (items : List (Option α)) (x : α) : List (Option α) × ℕ :=
  (StoreItem items x, FindFreeId items)

/-- Modelled from the spec: a `Get*` lookup by id ("not found" is `none`). -/
def GetItem {α : Type} : List (Option α) → ℕ → Option α
  | [], _ => none
  | x :: _, 0 => x
  | _ :: rest, n + 1 => GetItem rest n

/-- Modelled from the spec: `DeleteAll*` clears the whole collection in one
step. -/
def DeleteAllItems {α : Type} (_items : List (Option α)) : List (Option α) := []

end GSViewport

open GSViewport

/-- Adding an object and deleting it again frees exactly the id it was
assigned, which is again the lowest free id. -/
theorem findFreeId_delete_store {α : Type} (c : List (Option α)) (x : α) :
    FindFreeId (DeleteItem (StoreItem c x) (FindFreeId c)) = FindFreeId c := by
  induction c with
  | nil => rfl
  | cons hd rest ih =>
    cases hd with
    | none => rfl
    | some y =>
      show FindFreeId (some y :: DeleteItem (StoreItem rest x) (FindFreeId rest))
          = FindFreeId (some y :: rest)
      simp only [FindFreeId, ih]

/-- Adding an object and deleting it again leaves the slot of every other id
unchanged. -/
theorem getItem_delete_store {α : Type} (c : List (Option α)) (x : α) (i : ℕ)
    (h : i ≠ FindFreeId c) :
    GetItem (DeleteItem (StoreItem c x) (FindFreeId c)) i = GetItem c i := by
  induction c generalizing i with
  | nil =>
    cases i with
    | zero => exact absurd rfl h
    | succ j => rfl
  | cons hd rest ih =>
    cases hd with
    | none => rfl
    | some y =>
      cases i with
      | zero => rfl
      | succ j =>
        have hj : j ≠ FindFreeId rest := by
          intro hh
          exact h (by simp only [FindFreeId, hh])
        exact ih j hj

/-- C5: id allocation is first-fit over vacated slots: adding then deleting
an object restores the lowest free id and never changes the slots of the
other ids; in the scenario, A gets id 0, B gets id 1, after deleting A a new
add returns id 0 while B retains id 1; and an add after `DeleteAll*` assigns
id 0. -/
theorem C5_id_allocation :
    (∀ (c : List (Option ℕ)) (x : ℕ),
        FindFreeId (DeleteItem (StoreItem c x) (FindFreeId c)) = FindFreeId c ∧
        ∀ i, i ≠ FindFreeId c →
          GetItem (DeleteItem (StoreItem c x) (FindFreeId c)) i = GetItem c i) ∧
    ((AddItem ([] : List (Option ℕ)) 10).2 = 0 ∧
      (AddItem (AddItem ([] : List (Option ℕ)) 10).1 20).2 = 1 ∧
      (AddItem (DeleteItem (AddItem (AddItem ([] : List (Option ℕ)) 10).1 20).1 0) 30).2 = 0 ∧
      GetItem (AddItem (DeleteItem (AddItem (AddItem ([] : List (Option ℕ)) 10).1 20).1 0) 30).1 1 = some 20 ∧
      GetItem (AddItem (DeleteItem (AddItem (AddItem ([] : List (Option ℕ)) 10).1 20).1 0) 30).1 0 = some 30) ∧
    (∀ (c : List (Option ℕ)) (m : ℕ), (AddItem (DeleteAllItems c) m).2 = 0) :=
  ⟨fun c x => ⟨findFreeId_delete_store c x, fun i h => getItem_delete_store c x i h⟩,
    ⟨rfl, rfl, rfl, rfl, rfl⟩, fun _ _ => rfl⟩

/-- Witness for C5: the inner hypothesis `i ≠ FindFreeId c` discharged at a
concrete collection and id. -/
theorem C5_id_allocation_witness :
    GetItem (DeleteItem (StoreItem [some 10] 20) (FindFreeId ([some 10] : List (Option ℕ)))) 0
      = GetItem ([some 10] : List (Option ℕ)) 0 :=
  (C5_id_allocation.1 [some 10] 20).2 0 (by decide)

/-- The state of `GSViewport` relevant to the y-visible-region contract
(GSViewport.h lines 111-112). -/
structure GSViewportState where
  fYVisibleRegion : ℝ
  fYMinVisibleRegion : ℝ

/-- Modelled from the spec: the body of `GSViewport::SetYVisibleRegion`
(declared at GSViewport.h line 47, defined in the missing GSViewport.cxx).
Per the spec, a requested region ≤ 0 is clamped to the minimal positive
epsilon `fYMinVisibleRegion` (GSViewport.h line 112) rather than propagated
to the yZoom computation. -/
noncomputable def GSViewportState.SetYVisibleRegion (vp : GSViewportState)
    (region : ℝ) : GSViewportState :=
  { vp with fYVisibleRegion :=
      if region ≤ 0 then vp.fYMinVisibleRegion else region }

/-- C8: for every value `v ≤ 0`, `GSViewport::SetYVisibleRegion v` clamps the
stored visible region to the minimal positive epsilon, so the value passed on
to the yZoom computation is never zero or negative. -/
theorem C8_yvisible_clamped (vp : GSViewportState) (v : ℝ)
    (heps : 0 < vp.fYMinVisibleRegion) (hv : v ≤ 0) :
    (vp.SetYVisibleRegion v).fYVisibleRegion = vp.fYMinVisibleRegion ∧
    0 < (vp.SetYVisibleRegion v).fYVisibleRegion := by
  have h1 : (vp.SetYVisibleRegion v).fYVisibleRegion = vp.fYMinVisibleRegion := by
    show (if v ≤ 0 then vp.fYMinVisibleRegion else v) = vp.fYMinVisibleRegion
    rw [if_pos hv]
  exact ⟨h1, h1 ▸ heps⟩

/-- A concrete viewport state with a positive minimal epsilon. -/
noncomputable def gsviewport0 : GSViewportState :=
  { fYVisibleRegion := 20, fYMinVisibleRegion := 1 / 10000 }

/-- Witness for C8 at the boundary value `v = 0`. -/
theorem C8_yvisible_clamped_witness :
    (gsviewport0.SetYVisibleRegion 0).fYVisibleRegion = gsviewport0.fYMinVisibleRegion ∧
    0 < (gsviewport0.SetYVisibleRegion 0).fYVisibleRegion :=
  C8_yvisible_clamped gsviewport0 0 (by norm_num [gsviewport0]) (by norm_num)

namespace Viewer

/-- Toolkit widget-message class for horizontal scrollbars (external
constant consumed from the GUI toolkit headers). -/
def kC_HSCROLL : ℕ := 2

/-- Toolkit scrollbar sub-message sent while the slider is tracked
(external constant consumed from the GUI toolkit headers). -/
def kSB_SLIDERTRACK : ℕ := 5

/-- Toolkit event type of a key-press event (external constant consumed
from the GUI toolkit headers). -/
def kGKeyPress : ℕ := 0

/-- Toolkit message decoding `GET_MSG(val) = val >> 8` (external helper
consumed from the GUI toolkit headers). -/
def GET_MSG (msg : ℕ) : ℕ := msg / 256

/-- Toolkit message decoding `GET_SUBMSG(val) = val & 255` (external helper
consumed from the GUI toolkit headers). -/
def GET_SUBMSG (msg : ℕ) : ℕ := msg % 256

/-- `Viewer::ProcessMessage` (Viewer.cxx lines 78-84): the call
`fView->HandleScrollbar(parm1)` is made exactly when the message class is
`kC_HSCROLL` and the sub-message is `kSB_SLIDERTRACK`; the result records
the argument of that call (`none` when no call is made). -/
def ProcessMessage (msg : ℕ) (parm1 : ℤ) : Option ℤ :=
  if GET_MSG msg = kC_HSCROLL then
    if GET_SUBMSG msg = kSB_SLIDERTRACK then some parm1 else none
  else none

/-- `Viewer::HandleKey` (Viewer.cxx lines 68-76): returns the pair
(return value, whether `KeyPressed` was invoked); the function always
returns `true` and dispatches only on `kGKeyPress` events. -/
def HandleKey (evType : ℕ) : Bool × Bool :=
  if evType = kGKeyPress then (true, true) else (true, false)

end Viewer

/-- C9: `Viewer::ProcessMessage` calls `fView->HandleScrollbar(parm1)` if and
only if the message is `kC_HSCROLL` with sub-message `kSB_SLIDERTRACK`, and
`Viewer::HandleKey` returns true for every event, invoking `KeyPressed` only
when the event type is `kGKeyPress`. -/
theorem C9_viewer_event_forwarding :
    (∀ (msg : ℕ) (parm1 : ℤ),
        Viewer.ProcessMessage msg parm1 = some parm1 ↔
          (Viewer.GET_MSG msg = Viewer.kC_HSCROLL ∧
            Viewer.GET_SUBMSG msg = Viewer.kSB_SLIDERTRACK)) ∧
    (∀ evType : ℕ,
        (Viewer.HandleKey evType).1 = true ∧
        ((Viewer.HandleKey evType).2 = true ↔ evType = Viewer.kGKeyPress)) := by
  constructor
  · intro msg parm1
    unfold Viewer.ProcessMessage
    split
    · split
      · simp [*]
      · simp [*]
    · simp [*]
  · intro evType
    unfold Viewer.HandleKey
    split
    · simp [*]
    · simp [*]
